import Mathlib

/-!
Shallow embedding of the repository `lukakap/pbt-tune`, a single Jupyter
notebook (`updated_tune_pbt.ipynb`) that demonstrates Ray Tune's Population
Based Training scheduler on a LightGBM regressor.

The notebook's own code is: a class `TrainableForPBT(tune.Trainable)` with
five callback methods (`setup`, `step`, `save_checkpoint`, `load_checkpoint`,
`reset_config`), a handful of configuration-object instantiations
(`PopulationBasedTraining`, `TuneConfig`, `CheckpointConfig`, `RunConfig`,
`Tuner`), a single `tuner.fit()` call, and result printing.

Third-party values the notebook merely passes around are modelled
symbolically:
  * `Config` stands for a hyperparameter dict, `Dataset` for a numpy array;
    the notebook never inspects either, so they are opaque wrappers.
  * `Model` is a free-term model of the LightGBM estimator: `regressor c`
    is `LGBMRegressor(**c)`, and `fitted m x y init` is the object obtained
    from `m` by calling `m.fit(x, y)` (when `init = none`) or
    `m.fit(x, y, init_model=i)` (when `init = some i`).
  * `Score` is a free term for
    `cross_val_score(estimator=m, X=x, y=y, scoring='r2', cv=5).mean()`.
  * The file system is an overwrite-on-write finite map from paths to file
    contents; `json.dumps`/`json.loads` and `joblib.dump`/`joblib.load`
    round-trip exactly on the values the notebook stores, so a file's
    content is modelled as the stored value itself.
  * Each method additionally reports the list of side effects its body
    performs (`modelFit` for a call to `.fit`, `fileRead`/`fileWrite` for
    file I/O), so that claims about "model fitting and file I/O" are
    statable.
-/

/-- A hyperparameter configuration dict. The notebook never looks inside a
configuration; it only stores it and passes it to `LGBMRegressor(**config)`. -/
structure Config where
  val : Nat
deriving DecidableEq, Repr

/-- A training dataset (the `x_train` / `y_train` numpy arrays). Opaque to
the notebook's code. -/
structure Dataset where
  val : Nat
deriving DecidableEq, Repr

/-- Free-term model of a LightGBM estimator object.
`regressor c` is `LGBMRegressor(**c)`; `fitted m x y none` is the state of
`m` after `m.fit(x, y)`; `fitted m x y (some i)` after
`m.fit(x, y, init_model=i)`. -/
inductive Model where
  | regressor (config : Config)
  | fitted (base : Model) (x y : Dataset) (init : Option Model)

/-- Free-term model of
`cross_val_score(estimator=m, X=x, y=y, scoring='r2', cv=5).mean()`. -/
inductive Score where
  | crossValR2 (estimator : Model) (x y : Dataset)

/-- A path produced by `os.path.join(dir, file)` for a directory and a plain
file name, as the notebook always does. -/
structure OsPath where
  dir : String
  file : String
deriving DecidableEq, Repr

/-- Content of a file written by the notebook: either the JSON object
`{"current_score": ..., "current_step": ...}` produced by `json.dumps`, or a
model serialized with `joblib.dump`. -/
inductive FileData where
  | jsonCheckpoint (current_score : Option Score) (current_step : Nat)
  | joblibModel (m : Model)

/-- The file system: newest write first, lookup returns the newest entry. -/
def FileSystem := List (OsPath × FileData)

/-- Writing a file (create or overwrite). -/
def fsWrite (fs : FileSystem) (p : OsPath) (d : FileData) : FileSystem :=
  (p, d) :: fs

/-- Reading a file: the most recent write to the path, if any. -/
def fsRead : FileSystem → OsPath → Option FileData
  | [], _ => none
  | (q, d) :: rest, p => if q = p then some d else fsRead rest p

/-- `os.path.join`. -/
def joinPath (dir file : String) : OsPath :=
  ⟨dir, file⟩

/-- Side effects a method body performs: a call to LightGBM `.fit`, or file
I/O at a path. -/
inductive Effect where
  | modelFit
  | fileRead (p : OsPath)
  | fileWrite (p : OsPath)
deriving DecidableEq, Repr

/-- The file name `"checkpoint"` used by `save_checkpoint`/`load_checkpoint`. -/
def checkpointFileName : String :=
  "checkpoint"

/-- The file name `"model.joblib"` used by `save_checkpoint`/`load_checkpoint`. -/
def modelFileName : String :=
  "model.joblib"

/-- The instance state of the notebook's `TrainableForPBT` class: exactly the
attributes its methods assign to `self`. -/
structure TrainableForPBT where
  current_config : Config
  x_train : Dataset
  y_train : Dataset
  model : Model
  current_iteration : Nat
  current_step_score : Option Score

/-- `TrainableForPBT.setup(self, config, x_train, y_train)`: stores the
config and data, builds `LGBMRegressor(**config)`, zeroes the iteration
counter and the score. Returns the initialized state and the body's side
effects (none: constructing the regressor neither fits nor touches files). -/
def TrainableForPBT.setup (config : Config) (x_train y_train : Dataset) :
    TrainableForPBT × List Effect :=
  ({ current_config := config
     x_train := x_train
     y_train := y_train
     model := Model.regressor config
     current_iteration := 0
     current_step_score := none }, [])

/-- `TrainableForPBT.step(self)`: increments `current_iteration`, fits the
model (`fit(x, y)` on the first iteration, `fit(x, y, init_model=self.model)`
afterwards), cross-validates the fitted model, stores the score and returns
`{"r2_score": score}`. Result: (new state, results dict, side effects). -/
def TrainableForPBT.step (s : TrainableForPBT) :
    TrainableForPBT × List (String × Score) × List Effect :=
  let iter := s.current_iteration + 1
  let fittedModel :=
    if iter = 1 then
      Model.fitted s.model s.x_train s.y_train none
    else
      Model.fitted s.model s.x_train s.y_train (some s.model)
  let score := Score.crossValR2 fittedModel s.x_train s.y_train
  ({ s with
      current_iteration := iter
      model := fittedModel
      current_step_score := some score },
   [("r2_score", score)], [Effect.modelFit])

/-- `TrainableForPBT.save_checkpoint(self, tmp_checkpoint_dir)`: writes the
JSON file `checkpoint` holding `current_step_score` and `current_iteration`,
dumps the model to `model.joblib`, and returns `tmp_checkpoint_dir`.
Result: (new file system, return value, side effects). -/
def TrainableForPBT.save_checkpoint (s : TrainableForPBT) (fs : FileSystem)
    (tmp_checkpoint_dir : String) : FileSystem × String × List Effect :=
  let path := joinPath tmp_checkpoint_dir checkpointFileName
  let fs1 := fsWrite fs path
    (FileData.jsonCheckpoint s.current_step_score s.current_iteration)
  let path_for_model := joinPath tmp_checkpoint_dir modelFileName
  let fs2 := fsWrite fs1 path_for_model (FileData.joblibModel s.model)
  (fs2, tmp_checkpoint_dir, [Effect.fileWrite path, Effect.fileWrite path_for_model])

/-- `TrainableForPBT.load_checkpoint(self, tmp_checkpoint_dir)`: reads the
JSON file `checkpoint` and restores `current_step_score` and
`current_iteration`, then loads the model from `model.joblib`. `none` when a
file is missing or malformed (the Python code would raise).
Result on success: (new state, side effects). -/
def TrainableForPBT.load_checkpoint (s : TrainableForPBT) (fs : FileSystem)
    (tmp_checkpoint_dir : String) : Option (TrainableForPBT × List Effect) :=
  match fsRead fs (joinPath tmp_checkpoint_dir checkpointFileName) with
  | some (FileData.jsonCheckpoint sc st) =>
    match fsRead fs (joinPath tmp_checkpoint_dir modelFileName) with
    | some (FileData.joblibModel m) =>
      some ({ s with
                current_step_score := sc
                current_iteration := st
                model := m },
            [Effect.fileRead (joinPath tmp_checkpoint_dir checkpointFileName),
             Effect.fileRead (joinPath tmp_checkpoint_dir modelFileName)])
    | _ => none
  | _ => none

/-- `TrainableForPBT.reset_config(self, new_config)`: stores the new config,
zeroes the iteration counter and the score, rebuilds
`LGBMRegressor(**new_config)`, and returns `True`.
Result: (new state, return value, side effects). -/
def TrainableForPBT.reset_config (s : TrainableForPBT) (new_config : Config) :
    TrainableForPBT × Bool × List Effect :=
  ({ s with
      current_config := new_config
      current_iteration := 0
      current_step_score := none
      model := Model.regressor new_config }, true, [])

/-- The names of the methods the final `TrainableForPBT` class cell defines,
in source order; each overrides a hook of the `tune.Trainable` base class. -/
def overriddenCallbackMethods : List String :=
  ["setup", "step", "save_checkpoint", "load_checkpoint", "reset_config"]

/-- A Ray Tune search-space object: `tune.loguniform(lo, hi)` or
`tune.randint(lo, hi)`. The numeric bounds are kept as the exact literals of
the source (rationals; the notebook never computes with them). -/
inductive SearchSpace where
  | loguniform (lo hi : Rat)
  | randint (lo hi : Int)
deriving DecidableEq, Repr

/-- The inner dict `param_space["params"]` of the notebook. -/
def paramSpaceParams : List (String × SearchSpace) :=
  [("learning_rate", SearchSpace.loguniform (1 / 100000) (1 / 10)),
   ("num_leaves", SearchSpace.randint 5 100),
   ("max_depth", SearchSpace.randint 1 9)]

/-- The notebook's `param_space` dict, `{"params": {...}}`. -/
def param_space : List (String × List (String × SearchSpace)) :=
  [("params", paramSpaceParams)]

/-- The arguments the notebook passes to
`ray.tune.schedulers.PopulationBasedTraining`. -/
structure PopulationBasedTraining where
  time_attr : String
  perturbation_interval : Nat
  burn_in_period : Nat
  hyperparam_mutations : List (String × SearchSpace)
deriving DecidableEq, Repr

/-- The scheduler object `pbt` the notebook constructs. -/
def pbt : PopulationBasedTraining :=
  { time_attr := "training_iteration"
    perturbation_interval := 4
    burn_in_period := 10
    hyperparam_mutations := paramSpaceParams }

/-- The arguments the notebook passes to `ray.tune.tune_config.TuneConfig`. -/
structure TuneConfig where
  metric : String
  mode : String
  search_alg : Option Unit
  scheduler : Option PopulationBasedTraining
  num_samples : Nat
  reuse_actors : Bool
deriving DecidableEq, Repr

/-- The `tune_config` object the notebook constructs. -/
def tune_config : TuneConfig :=
  { metric := "r2_score"
    mode := "max"
    search_alg := none
    scheduler := some pbt
    num_samples := 15
    reuse_actors := true }

/-- The arguments the notebook passes to `ray.air.config.CheckpointConfig`. -/
structure CheckpointConfig where
  checkpoint_score_attribute : String
  checkpoint_score_order : String
  checkpoint_frequency : Nat
  checkpoint_at_end : Bool
deriving DecidableEq, Repr

/-- The `checkpoint_config` object the notebook constructs. -/
def checkpoint_config : CheckpointConfig :=
  { checkpoint_score_attribute := "r2_score"
    checkpoint_score_order := "max"
    checkpoint_frequency := 4
    checkpoint_at_end := true }

/-- The arguments the notebook passes to `ray.air.config.RunConfig`; `stop`
is the stopping-criteria dict. -/
structure RunConfig where
  name : String
  local_dir : String
  stop : List (String × Nat)
  checkpoint_config : CheckpointConfig
deriving DecidableEq, Repr

/-- The `run_config` object the notebook constructs. -/
def run_config : RunConfig :=
  { name := "pbt_experiment"
    local_dir := "/Users/admin/Desktop/Dressler/Publications"
    stop := [("training_iteration", 30)]
    checkpoint_config := checkpoint_config }

/-- The arguments the notebook passes to `ray.tune.tuner.Tuner`; the
trainable is `tune.with_parameters(TrainableForPBT, x_train=..., y_train=...)`
and is recorded here by the wrapped class's name. -/
structure Tuner where
  trainable : String
  param_space : List (String × SearchSpace)
  tune_config : TuneConfig
  run_config : RunConfig
deriving DecidableEq, Repr

/-- The `tuner` object the notebook constructs; its `param_space` argument is
`param_space["params"]`. -/
def tuner : Tuner :=
  { trainable := "TrainableForPBT"
    param_space := paramSpaceParams
    tune_config := tune_config
    run_config := run_config }

/-- One top-level action of the notebook, at the granularity of its code
cells (method-definition snippet cells are the expository per-method cells
that precede the final class cell). -/
inductive ScriptAction where
  | pipInstall
  | importModules
  | defineTrainable
  | defineMethodSnippet
  | defineParamSpace
  | instantiateScheduler
  | instantiateTuneConfig
  | instantiateCheckpointConfig
  | instantiateRunConfig
  | loadDataset
  | splitDataset
  | wrapWithParameters
  | instantiateTuner
  | tunerFit
  | readResults
  | printResult
deriving DecidableEq, Repr

/-- The notebook's code cells, in order, as top-level actions. The last code
cell reads the `ResultGrid` and issues three `print` calls. -/
def scriptTrace : List ScriptAction :=
  [ScriptAction.pipInstall,
   ScriptAction.importModules,
   ScriptAction.defineTrainable,
   ScriptAction.defineMethodSnippet,
   ScriptAction.defineMethodSnippet,
   ScriptAction.defineMethodSnippet,
   ScriptAction.defineMethodSnippet,
   ScriptAction.defineMethodSnippet,
   ScriptAction.defineTrainable,
   ScriptAction.defineParamSpace,
   ScriptAction.instantiateScheduler,
   ScriptAction.instantiateTuneConfig,
   ScriptAction.instantiateCheckpointConfig,
   ScriptAction.instantiateRunConfig,
   ScriptAction.loadDataset,
   ScriptAction.splitDataset,
   ScriptAction.wrapWithParameters,
   ScriptAction.instantiateTuner,
   ScriptAction.tunerFit,
   ScriptAction.readResults,
   ScriptAction.printResult,
   ScriptAction.printResult,
   ScriptAction.printResult]

/-- One invocation of a `TrainableForPBT` callback, as chosen by the Ray Tune
library at run time (the repository code never chooses these). -/
inductive TrialOp where
  | stepOp
  | saveOp (dir : String)
  | loadOp (dir : String)
  | resetOp (config : Config)
deriving DecidableEq, Repr

/-- Applying one callback invocation to the trainable state and file system.
A failing `load_checkpoint` (missing file) raises in Python and changes no
persisted state; it is modelled as a no-op here. -/
def applyOp : TrainableForPBT × FileSystem → TrialOp → TrainableForPBT × FileSystem
  | (s, fs), TrialOp.stepOp => ((s.step).1, fs)
  | (s, fs), TrialOp.saveOp dir => (s, (s.save_checkpoint fs dir).1)
  | (s, fs), TrialOp.loadOp dir =>
    match s.load_checkpoint fs dir with
    | some (t, _) => (t, fs)
    | none => (s, fs)
  | (s, fs), TrialOp.resetOp c => ((s.reset_config c).1, fs)

/-- Running a sequence of callback invocations. -/
def runTrainable (init : TrainableForPBT × FileSystem) (ops : List TrialOp) :
    TrainableForPBT × FileSystem :=
  ops.foldl applyOp init

/-- The configurations injected into the trainable from outside: the one
passed to `setup` and those passed to `reset_config` calls. -/
def injectedConfigs (c0 : Config) (ops : List TrialOp) : List Config :=
  c0 :: ops.filterMap (fun op =>
    match op with
    | TrialOp.resetOp c => some c
    | _ => none)

/-- The most recently injected configuration after a sequence of callback
invocations, starting from `c`. -/
def lastInjected (c : Config) (ops : List TrialOp) : Config :=
  ops.foldl (fun acc op =>
    match op with
    | TrialOp.resetOp c' => c'
    | _ => acc) c

/-- A sample hyperparameter configuration, for concrete witnesses. -/
def sampleConfig : Config :=
  ⟨0⟩

/-- A sample `x_train` dataset. -/
def sampleX : Dataset :=
  ⟨0⟩

/-- A sample `y_train` dataset. -/
def sampleY : Dataset :=
  ⟨1⟩

/-- A freshly set-up trainable state. -/
def sampleState : TrainableForPBT :=
  (TrainableForPBT.setup sampleConfig sampleX sampleY).1

/-- The sample state after one `step`. -/
def sampleSteppedState : TrainableForPBT :=
  (sampleState.step).1

/-- An empty file system. -/
def emptyFS : FileSystem :=
  []

/-- A sample checkpoint directory name. -/
def sampleDir : String :=
  "tmp-dir-000"

/-- The file system after the stepped sample state saves a checkpoint into
`sampleDir`. -/
def sampleSavedFS : FileSystem :=
  (sampleSteppedState.save_checkpoint emptyFS sampleDir).1

/-- The state obtained by restoring the stepped state's checkpoint into the
fresh sample state. -/
def sampleRestoredState : TrainableForPBT :=
  { sampleState with
      current_step_score := sampleSteppedState.current_step_score
      current_iteration := sampleSteppedState.current_iteration
      model := sampleSteppedState.model }

/-- The side effects `load_checkpoint` reports on success for `sampleDir`. -/
def sampleLoadEffects : List Effect :=
  [Effect.fileRead (joinPath sampleDir checkpointFileName),
   Effect.fileRead (joinPath sampleDir modelFileName)]

/-! ### Helper lemmas -/

theorem joinPath_ne_of_file_ne (dir f g : String) (h : f ≠ g) :
    joinPath dir f ≠ joinPath dir g := by
  intro he
  exact h (congrArg OsPath.file he)

theorem fsRead_fsWrite_same (fs : FileSystem) (p : OsPath) (d : FileData) :
    fsRead (fsWrite fs p d) p = some d := by
  simp [fsRead, fsWrite]

theorem fsRead_fsWrite_other (fs : FileSystem) (p q : OsPath) (d : FileData)
    (h : p ≠ q) : fsRead (fsWrite fs p d) q = fsRead fs q := by
  simp [fsRead, fsWrite, h]

/-- On success, `load_checkpoint` leaves `current_config`, `x_train` and
`y_train` untouched. -/
theorem load_checkpoint_frame (s t : TrainableForPBT) (fs : FileSystem)
    (dir : String) (effs : List Effect)
    (h : s.load_checkpoint fs dir = some (t, effs)) :
    t.current_config = s.current_config ∧ t.x_train = s.x_train ∧
    t.y_train = s.y_train := by
  unfold TrainableForPBT.load_checkpoint at h
  split at h
  · split at h
    · rw [Option.some.injEq, Prod.mk.injEq] at h
      obtain ⟨ht, -⟩ := h
      subst ht
      exact ⟨rfl, rfl, rfl⟩
    · exact Option.noConfusion h
  · exact Option.noConfusion h

/-- The configuration held after one callback invocation: unchanged unless
the invocation was a `reset_config`, in which case it is the injected one. -/
theorem applyOp_config (s : TrainableForPBT) (fs : FileSystem) (op : TrialOp) :
    (applyOp (s, fs) op).1.current_config =
      match op with
      | TrialOp.resetOp c => c
      | _ => s.current_config := by
  cases op with
  | stepOp => rfl
  | saveOp dir => rfl
  | loadOp dir =>
    show (match s.load_checkpoint fs dir with
          | some (t, _) => (t, fs)
          | none => (s, fs)).1.current_config = s.current_config
    cases h : s.load_checkpoint fs dir with
    | none => rfl
    | some r =>
      obtain ⟨t, effs⟩ := r
      exact (load_checkpoint_frame s t fs dir effs h).1
  | resetOp c => rfl

/-- Over a whole run, the configuration is exactly the most recently
injected one. -/
theorem runTrainable_config (ops : List TrialOp) :
    ∀ (s : TrainableForPBT) (fs : FileSystem),
      (runTrainable (s, fs) ops).1.current_config =
        lastInjected s.current_config ops := by
  induction ops with
  | nil => intro s fs; rfl
  | cons op rest ih =>
    intro s fs
    have h1 := ih (applyOp (s, fs) op).1 (applyOp (s, fs) op).2
    have h2 : (runTrainable (s, fs) (op :: rest)).1.current_config =
        lastInjected (applyOp (s, fs) op).1.current_config rest := h1
    rw [h2, applyOp_config]
    cases op <;> rfl

/-- The most recently injected configuration is an injected configuration. -/
theorem lastInjected_mem (ops : List TrialOp) :
    ∀ c : Config, lastInjected c ops ∈ injectedConfigs c ops := by
  induction ops with
  | nil =>
    intro c
    simp [lastInjected, injectedConfigs]
  | cons op rest ih =>
    intro c
    cases op with
    | resetOp c' =>
      have h := ih c'
      simp only [lastInjected, injectedConfigs, List.foldl_cons,
        List.filterMap_cons] at h ⊢
      exact List.mem_cons_of_mem c h
    | stepOp =>
      have h := ih c
      simp only [lastInjected, injectedConfigs, List.foldl_cons,
        List.filterMap_cons] at h ⊢
      exact h
    | saveOp dir =>
      have h := ih c
      simp only [lastInjected, injectedConfigs, List.foldl_cons,
        List.filterMap_cons] at h ⊢
      exact h
    | loadOp dir =>
      have h := ih c
      simp only [lastInjected, injectedConfigs, List.foldl_cons,
        List.filterMap_cons] at h ⊢
      exact h

/-! ### Claim theorems -/

/-- C1: the notebook instantiates the trainable class, the search space, the
scheduler, and the configuration objects (`TuneConfig`, `CheckpointConfig`,
`RunConfig`, `Tuner`); it calls the library-provided `fit()` entry point on
the Tuner exactly once; every result `print` comes after that single call;
no second `Tuner.fit` call occurs anywhere in the program. -/
theorem script_single_fit_call :
    scriptTrace.count ScriptAction.tunerFit = 1 ∧
    ScriptAction.defineTrainable ∈ scriptTrace ∧
    ScriptAction.defineParamSpace ∈ scriptTrace ∧
    ScriptAction.instantiateScheduler ∈ scriptTrace ∧
    ScriptAction.instantiateTuneConfig ∈ scriptTrace ∧
    ScriptAction.instantiateCheckpointConfig ∈ scriptTrace ∧
    ScriptAction.instantiateRunConfig ∈ scriptTrace ∧
    ScriptAction.instantiateTuner ∈ scriptTrace ∧
    ScriptAction.printResult ∈ scriptTrace ∧
    (scriptTrace.takeWhile (fun a => a != ScriptAction.tunerFit)).count
        ScriptAction.printResult = 0 := by
  decide

/-- C2 counterexample: the claim asserts that the set of overriding callback
methods of `TrainableForPBT` is exactly
{setup, step, save_checkpoint, load_checkpoint, reset_config} and that its
size is four; that conjunction is false, because the class defines five such
methods. -/
theorem callback_count_not_four :
    ¬ (overriddenCallbackMethods = ["setup", "step", "save_checkpoint",
        "load_checkpoint", "reset_config"] ∧
       overriddenCallbackMethods.length = 4) := by
  decide

/-- C2 (amended): the overriding callback methods of `TrainableForPBT` are
exactly setup, step, save_checkpoint, load_checkpoint and reset_config,
pairwise distinct, and there are five of them. -/
theorem callback_methods_exactly_five :
    overriddenCallbackMethods = ["setup", "step", "save_checkpoint",
      "load_checkpoint", "reset_config"] ∧
    overriddenCallbackMethods.Nodup ∧
    overriddenCallbackMethods.length = 5 := by
  decide

/-- C3 counterexample: the claim asserts every invocation of each callback
both fits the model and reads or writes files; the `step` invocation on a
freshly set-up state fits the model but performs no file I/O at any path, so
the conjunction fails there. -/
theorem step_fits_without_file_access :
    Effect.modelFit ∈ (sampleState.step).2.2 ∧
    ¬ ∃ p, (Effect.fileRead p ∈ (sampleState.step).2.2 ∨
            Effect.fileWrite p ∈ (sampleState.step).2.2) := by
  constructor
  · simp [sampleState, TrainableForPBT.setup, TrainableForPBT.step]
  · rintro ⟨p, hp | hp⟩ <;>
      simp [sampleState, TrainableForPBT.setup, TrainableForPBT.step] at hp

/-- C3 (amended): each callback is a few lines of model fitting or file I/O,
but no callback does both: every `step` invocation performs exactly one
model fit and no file I/O; every `save_checkpoint` invocation performs
exactly two file writes (the JSON checkpoint and the joblib model) and no
fit; every successful `load_checkpoint` invocation performs exactly two file
reads and no fit; `setup` and `reset_config` invocations construct a fresh
regressor and perform neither fitting nor file I/O. -/
theorem callback_effect_profile (cfg c : Config) (x y : Dataset)
    (s t : TrainableForPBT) (fs fs2 : FileSystem) (dir dir2 : String)
    (effs : List Effect)
    (hload : s.load_checkpoint fs dir = some (t, effs)) :
    (TrainableForPBT.setup cfg x y).2 = [] ∧
    (s.step).2.2 = [Effect.modelFit] ∧
    (s.save_checkpoint fs2 dir2).2.2 =
      [Effect.fileWrite (joinPath dir2 checkpointFileName),
       Effect.fileWrite (joinPath dir2 modelFileName)] ∧
    effs = [Effect.fileRead (joinPath dir checkpointFileName),
            Effect.fileRead (joinPath dir modelFileName)] ∧
    (s.reset_config c).2.2 = [] := by
  refine ⟨rfl, rfl, rfl, ?_, rfl⟩
  unfold TrainableForPBT.load_checkpoint at hload
  split at hload
  · split at hload
    · rw [Option.some.injEq, Prod.mk.injEq] at hload
      exact hload.2.symm
    · exact Option.noConfusion hload
  · exact Option.noConfusion hload

/-- C3 witness: the amended profile holds at a concrete successful load. -/
theorem callback_effect_profile_witness :
    sampleState.load_checkpoint sampleSavedFS sampleDir =
      some (sampleRestoredState, sampleLoadEffects) ∧
    ((TrainableForPBT.setup sampleConfig sampleX sampleY).2 = [] ∧
     (sampleState.step).2.2 = [Effect.modelFit] ∧
     (sampleState.save_checkpoint emptyFS sampleDir).2.2 =
       [Effect.fileWrite (joinPath sampleDir checkpointFileName),
        Effect.fileWrite (joinPath sampleDir modelFileName)] ∧
     sampleLoadEffects =
       [Effect.fileRead (joinPath sampleDir checkpointFileName),
        Effect.fileRead (joinPath sampleDir modelFileName)] ∧
     (sampleState.reset_config sampleConfig).2.2 = []) :=
  ⟨rfl, callback_effect_profile sampleConfig sampleConfig sampleX sampleY
    sampleState sampleRestoredState sampleSavedFS emptyFS sampleDir sampleDir
    sampleLoadEffects rfl⟩

/-- C4: for any saving state `s` and any loading state `t`, saving into a
directory and then loading from it succeeds and restores
`current_step_score`, `current_iteration` and `model` to exactly the values
at the time of saving (leaving the loader's other fields in place), and
`save_checkpoint` returns its `tmp_checkpoint_dir` argument unchanged. -/
theorem checkpoint_roundtrip (s t : TrainableForPBT) (fs : FileSystem)
    (dir : String) :
    (s.save_checkpoint fs dir).2.1 = dir ∧
    t.load_checkpoint (s.save_checkpoint fs dir).1 dir =
      some ({ t with
                current_step_score := s.current_step_score
                current_iteration := s.current_iteration
                model := s.model },
            [Effect.fileRead (joinPath dir checkpointFileName),
             Effect.fileRead (joinPath dir modelFileName)]) := by
  refine ⟨rfl, ?_⟩
  have hne : joinPath dir modelFileName ≠ joinPath dir checkpointFileName :=
    joinPath_ne_of_file_ne dir _ _ (by decide)
  show t.load_checkpoint
      (fsWrite
        (fsWrite fs (joinPath dir checkpointFileName)
          (FileData.jsonCheckpoint s.current_step_score s.current_iteration))
        (joinPath dir modelFileName) (FileData.joblibModel s.model)) dir = _
  unfold TrainableForPBT.load_checkpoint
  rw [fsRead_fsWrite_other _ _ _ _ hne, fsRead_fsWrite_same, fsRead_fsWrite_same]

/-- C5: on success, `load_checkpoint` modifies only `current_step_score`,
`current_iteration` and `model`; `current_config`, `x_train` and `y_train`
are left unchanged — in particular the hyperparameter configuration is never
restored from a checkpoint. -/
theorem load_checkpoint_frame_spec (s t : TrainableForPBT) (fs : FileSystem)
    (dir : String) (effs : List Effect)
    (h : s.load_checkpoint fs dir = some (t, effs)) :
    t.current_config = s.current_config ∧
    t.x_train = s.x_train ∧
    t.y_train = s.y_train :=
  load_checkpoint_frame s t fs dir effs h

/-- C5 witness: the frame condition holds at a concrete successful load. -/
theorem load_checkpoint_frame_spec_witness :
    sampleState.load_checkpoint sampleSavedFS sampleDir =
      some (sampleRestoredState, sampleLoadEffects) ∧
    (sampleRestoredState.current_config = sampleState.current_config ∧
     sampleRestoredState.x_train = sampleState.x_train ∧
     sampleRestoredState.y_train = sampleState.y_train) :=
  ⟨rfl, load_checkpoint_frame_spec sampleState sampleRestoredState
    sampleSavedFS sampleDir sampleLoadEffects rfl⟩

/-- C6: every `step` call increments `current_iteration` by exactly one and
returns a dict whose only entry is key `"r2_score"` with the value stored in
`current_step_score` after the call; when the incremented iteration equals 1
the model is fit without `init_model`, and on every later call with
`init_model` set to the current model. -/
theorem step_spec (s : TrainableForPBT) :
    (s.step).1.current_iteration = s.current_iteration + 1 ∧
    (∃ sc, (s.step).2.1 = [("r2_score", sc)] ∧
           (s.step).1.current_step_score = some sc) ∧
    (s.step).1.model =
      Model.fitted s.model s.x_train s.y_train
        (if s.current_iteration + 1 = 1 then none else some s.model) := by
  refine ⟨rfl, ?_, ?_⟩
  · exact ⟨Score.crossValR2 ((s.step).1.model) s.x_train s.y_train, rfl, rfl⟩
  · by_cases h : s.current_iteration + 1 = 1
    · simp [TrainableForPBT.step, h]
    · simp [TrainableForPBT.step, h]

/-- C7: the repository implements no exploit/explore, perturbation or
actor-reuse logic of its own: formally, over any sequence of callback
invocations chosen by the library, the configuration held by the trainable
is always one injected from outside (the `setup` argument or a
`reset_config` argument); the repository's code never creates or perturbs a
hyperparameter configuration, and all scheduling decisions (which callback
to invoke, with which directory or configuration) are external inputs. -/
theorem config_provenance (c0 : Config) (x y : Dataset) (fs0 : FileSystem)
    (ops : List TrialOp) :
    (runTrainable ((TrainableForPBT.setup c0 x y).1, fs0) ops).1.current_config
      ∈ injectedConfigs c0 ops := by
  have h := runTrainable_config ops (TrainableForPBT.setup c0 x y).1 fs0
  rw [h]
  exact lastInjected_mem ops c0
